import Mathlib

/-!
Shallow embedding of the connection/authentication and bulk-export core of
the fhir-r4-mcp-server repository, translated from
`src/fhir_r4_mcp/core/auth/base.py`, `src/fhir_r4_mcp/core/auth/smart_backend.py`,
`src/fhir_r4_mcp/core/connection_manager.py`, `src/fhir_r4_mcp/core/client.py`
and the bulk-export tools of `src/fhir_r4_mcp/server.py`.

Modelling conventions:
- `datetime.utcnow()` is modelled by an explicit `now : Int` (seconds) threaded
  through each operation; a single operation uses one clock reading.
- Network effects (httpx calls, the token endpoint) are modelled as oracles
  passed in as explicit arguments; each operation returns, besides its result,
  the trace of network calls it issued.
- Python exceptions are modelled with `Except`; the distinction between the
  repository's `FHIRError` hierarchy and raw Python exceptions
  (`ValueError`, `IndexError`, `KeyError`) is kept, because `except FHIRError`
  clauses in the source only catch the former.
- Python `dict` registries are modelled as functions `String → Option _`.
- `details` dictionaries attached to errors are modelled as string association
  lists; fields of `details` whose values are claim-irrelevant non-strings are
  omitted.
-/

namespace FHIR

/-! ### Data model, from `core/auth/base.py` -/

/-- `AuthType` enum (`core/auth/base.py`). -/
inductive AuthType where
  | smart_backend
  | oauth2
  | basic
  | api_key
  deriving DecidableEq, Repr

/-- `AuthResult` dataclass (`core/auth/base.py`). `expires_at` is a UTC
timestamp in seconds. -/
structure AuthResult where
  access_token : String
  token_type : String := "Bearer"
  expires_at : Option Int := none
  scope : Option String := none
  refresh_token : Option String := none
  deriving DecidableEq, Repr

/-- `AuthResult.is_expired` property: `datetime.utcnow() >= expires_at`, false
when no expiry is set. -/
def AuthResult.is_expired (a : AuthResult) (now : Int) : Bool :=
  match a.expires_at with
  | none => false
  | some t => decide (t ≤ now)

/-- `AuthResult.authorization_header` property. -/
def AuthResult.authorization_header (a : AuthResult) : String :=
  a.token_type ++ " " ++ a.access_token

/-- The `FHIRAuthError` exception (`utils/errors.py`): message, `expired` flag
and a `details` dictionary. This is the only exception type the
`AuthProvider` contract allows `authenticate`/`refresh` to raise. -/
structure FHIRAuthError where
  message : String
  expired : Bool := false
  details : List (String × String) := []
  deriving DecidableEq, Repr

/-- An `AuthProvider` modelled extensionally: the outcome its `refresh` call
would produce and the outcome its `authenticate` call would produce, each
either a fresh `AuthResult` or a raised `FHIRAuthError` (the type both
abstract methods are documented to raise in `core/auth/base.py`). -/
structure AuthProvider where
  refreshOutcome : Except FHIRAuthError AuthResult
  authenticateOutcome : Except FHIRAuthError AuthResult
  deriving Repr

/-! ### Error taxonomy, from `utils/errors.py` plus raw Python exceptions -/

/-- Exceptions that can be raised by the modelled code: the repository's typed
`FHIRError` subclasses, plus raw Python `ValueError` / `IndexError` /
`KeyError` which are *not* part of the `FHIRError` hierarchy. -/
inductive Err where
  | fhirAuthError (message : String) (expired : Bool) (details : List (String × String))
  | fhirResourceNotFound (message : String) (details : List (String × String))
  | fhirRateLimit (message : String) (retryAfter : Option Int) (details : List (String × String))
  | fhirServerError (message : String) (statusCode : Nat) (details : List (String × String))
  | fhirNetworkError (message : String)
  | fhirConnectionError (message : String) (connectionId : String)
  | valueError (message : String)
  | indexError (message : String)
  | keyError (message : String)
  deriving DecidableEq, Repr

/-- Whether an exception is an instance of the repository's `FHIRError` base
class (`utils/errors.py`); raw Python exceptions are not. -/
def Err.isFHIRError : Err → Bool
  | .valueError _ => false
  | .indexError _ => false
  | .keyError _ => false
  | _ => true

/-- Conversion of a raised `FHIRAuthError` into the common exception type. -/
def FHIRAuthError.toErr (e : FHIRAuthError) : Err :=
  .fhirAuthError e.message e.expired e.details

/-! ### JSON values (results of Python `json` parsing) -/

/-- A parsed JSON value; integers stand in for JSON numbers (fractional
values never matter for the claims under study). -/
inductive Json where
  | null
  | bool (b : Bool)
  | num (n : Int)
  | str (s : String)
  | arr (xs : List Json)
  | obj (fields : List (String × Json))

/-! ### Connection model, from `core/connection_manager.py` -/

/-- `ConnectionStatus` enum. -/
inductive ConnectionStatus where
  | connected
  | disconnected
  | error
  | token_expired
  deriving DecidableEq, Repr

/-- `VendorType` enum. -/
inductive VendorType where
  | nextgen
  | epic
  | cerner
  | generic
  deriving DecidableEq, Repr

/-- `Connection` dataclass (`core/connection_manager.py`). -/
structure Connection where
  connection_id : String
  base_url : String
  auth_type : AuthType
  vendor : VendorType := .generic
  status : ConnectionStatus := .disconnected
  auth_result : Option AuthResult := none
  auth_provider : Option AuthProvider := none
  capability_statement : Option Json := none
  created_at : Int := 0
  last_used_at : Option Int := none

/-- `Connection.is_authenticated` property. -/
def Connection.is_authenticated (c : Connection) (now : Int) : Bool :=
  match c.auth_result with
  | none => false
  | some ar => !(ar.is_expired now)

/-- The manager's `_connections` dict, modelled as a lookup function. -/
def Registry : Type := String → Option Connection

/-- Empty registry. -/
def Registry.empty : Registry := fun _ => none

/-- `self._connections[connection_id] = connection`. -/
def Registry.set (m : Registry) (k : String) (v : Connection) : Registry :=
  fun k' => if k' = k then some v else m k'

/-- Lookup in the registry. -/
def Registry.get? (m : Registry) (k : String) : Option Connection := m k

/-- Token-endpoint network calls made by a connection's auth provider during
one manager operation. -/
inductive AuthCall where
  | refreshCall
  | authenticateCall
  deriving DecidableEq, Repr

/-- `str.rstrip("/")`: drop every trailing slash. -/
def pyRstripSlash (s : String) : String :=
  String.mk ((s.data.reverse.dropWhile (fun c => c = '/')).reverse)

namespace ConnectionManager

/-- `ConnectionManager.get`: raises `FHIRConnectionError` when absent. -/
def get (m : Registry) (connection_id : String) : Except Err Connection :=
  match m.get? connection_id with
  | none => .error (.fhirConnectionError ("Connection not found: " ++ connection_id) connection_id)
  | some c => .ok c

/-- Result of `ConnectionManager.connect`: the registry afterwards and the
returned connection or raised exception. -/
structure ConnectOutput where
  registry : Registry
  result : Except Err Connection

/-- `ConnectionManager.connect` for the one supported auth type
(`_create_auth_provider` raises `ValueError` for every other type before any
network call). The provider built from the auth config is passed in as an
oracle. On `FHIRAuthError` from `authenticate()` the local connection object
gets status ERROR and the exception is re-raised *before* the store into
`_connections`, so the registry is unchanged. -/
def connect (m : Registry) (connection_id base_url : String) (auth_type : AuthType)
    (vendor : VendorType) (provider : AuthProvider) (now : Int) : ConnectOutput :=
  match auth_type with
  | .smart_backend =>
    let connection : Connection :=
      { connection_id := connection_id
        base_url := pyRstripSlash base_url
        auth_type := auth_type
        vendor := vendor
        status := .disconnected
        auth_result := none
        auth_provider := some provider
        capability_statement := none
        created_at := now
        last_used_at := none }
    match provider.authenticateOutcome with
    | .ok ar =>
      let c := { connection with auth_result := some ar, status := ConnectionStatus.connected }
      ⟨m.set connection_id c, .ok c⟩
    | .error e => ⟨m, .error e.toErr⟩
  | _ => ⟨m, .error (.valueError "Unsupported auth type")⟩

/-- Result of `ConnectionManager.ensure_authenticated`: registry afterwards,
the trace of provider network calls, and the returned connection or raised
exception. -/
structure EnsureOutput where
  registry : Registry
  calls : List AuthCall
  result : Except Err Connection

/-- `ConnectionManager.ensure_authenticated`, translated line by line: when the
current `AuthResult` is present and expired, set status TOKEN_EXPIRED, try
`refresh` once, fall back to `authenticate` once if refresh raised
`FHIRAuthError`, set status CONNECTED on success; stamp `last_used_at` at the
end of every non-raising path. The in-place mutations of the Python object are
reflected into the registry. -/
def ensure_authenticated (m : Registry) (connection_id : String) (now : Int) : EnsureOutput :=
  match get m connection_id with
  | .error e => ⟨m, [], .error e⟩
  | .ok connection =>
    match connection.auth_result with
    | some ar =>
      if ar.is_expired now then
        let c1 := { connection with status := ConnectionStatus.token_expired }
        match c1.auth_provider with
        | some provider =>
          match provider.refreshOutcome with
          | .ok newAr =>
            let c2 := { c1 with auth_result := some newAr,
                                status := ConnectionStatus.connected,
                                last_used_at := some now }
            ⟨m.set connection_id c2, [.refreshCall], .ok c2⟩
          | .error _ =>
            match provider.authenticateOutcome with
            | .ok newAr =>
              let c2 := { c1 with auth_result := some newAr,
                                  status := ConnectionStatus.connected,
                                  last_used_at := some now }
              ⟨m.set connection_id c2, [.refreshCall, .authenticateCall], .ok c2⟩
            | .error e =>
              ⟨m.set connection_id c1, [.refreshCall, .authenticateCall], .error e.toErr⟩
        | none =>
          let c2 := { c1 with last_used_at := some now }
          ⟨m.set connection_id c2, [], .ok c2⟩
      else
        let c2 := { connection with last_used_at := some now }
        ⟨m.set connection_id c2, [], .ok c2⟩
    | none =>
      let c2 := { connection with last_used_at := some now }
      ⟨m.set connection_id c2, [], .ok c2⟩

end ConnectionManager

/-! ### HTTP client, from `core/client.py` -/

/-- Default retry configuration constant `MAX_RETRIES` (`core/client.py`),
stored on the client but never consulted by `request`. -/
def MAX_RETRIES : Nat := 3

/-- An httpx response as observed by the client: status code, headers and the
body text (`response.text`; `response.content` is nonempty iff the text is). -/
structure HttpResponse where
  status : Nat
  headers : List (String × String)
  body : String

/-- `headers.get(name)`; header-name case folding is irrelevant to the claims
and omitted. -/
def headerGet (hs : List (String × String)) (k : String) : Option String :=
  (hs.find? (fun p => p.fst == k)).map Prod.snd

/-- Python `int(s)` on a string, `none` when it raises `ValueError`; modelled
as signed decimal parsing. -/
def pyInt (s : String) : Option Int := s.toInt?

/-- httpx `response.is_success`: a status code in 2xx. -/
def isSuccessStatus (status : Nat) : Bool :=
  decide (200 ≤ status) && decide (status ≤ 299)

/-- Outcome of one httpx request attempt. -/
inductive TransportOutcome where
  | response (r : HttpResponse)
  | timeoutException (message : String)
  | requestError (message : String)

namespace FHIRClient

/-- `FHIRClient._handle_error_response`, translated branch by branch. Note the
Python function simply returns (raises nothing) for any status not matched by
a branch — e.g. 3xx, 400, 422. On 429, `int(retry_after) if retry_after else
None` treats an absent *or empty* header as `None`, and raises an uncaught
`ValueError` for a non-integer header value. -/
def handle_error_response (response : HttpResponse) (connection_id : String) : Except Err Unit :=
  let status := response.status
  if status = 401 then
    .error (.fhirAuthError "Authentication failed - token may be invalid" true
      [("connection_id", connection_id)])
  else if status = 403 then
    .error (.fhirAuthError "Access forbidden - insufficient permissions" false
      [("connection_id", connection_id)])
  else if status = 404 then
    .error (.fhirResourceNotFound "Resource not found" [("connection_id", connection_id)])
  else if status = 429 then
    match headerGet response.headers "Retry-After" with
    | none => .error (.fhirRateLimit "Rate limit exceeded" none [("connection_id", connection_id)])
    | some s =>
      if s = "" then
        .error (.fhirRateLimit "Rate limit exceeded" none [("connection_id", connection_id)])
      else
        match pyInt s with
        | some n =>
          .error (.fhirRateLimit "Rate limit exceeded" (some n) [("connection_id", connection_id)])
        | none => .error (.valueError ("invalid literal for int with base 10: " ++ s))
  else if 500 ≤ status then
    .error (.fhirServerError ("FHIR server error: " ++ toString status) status
      [("connection_id", connection_id), ("response", response.body.take 500)])
  else
    .ok ()

/-- Result of one `FHIRClient.request` call: registry afterwards, provider
token calls made by `ensure_authenticated`, the number of HTTP attempts the
client itself issued, and the returned JSON or raised exception. -/
structure RequestOutput where
  registry : Registry
  authCalls : List AuthCall
  httpAttempts : Nat
  result : Except Err Json

/-- `FHIRClient.request`, translated from `core/client.py`. The `max_retries`
field of the client is accepted but — exactly as in the source, which contains
no retry loop — never read. `transport n` is the outcome the HTTP transport
would produce for an n-th attempt; the source issues a single
`client.request(...)`. `parse` models `response.json()` on the body text
(JSON decoding errors are outside the claims under study). URL construction
and header assembly (`_get_headers`) have no bearing on the claims and are
not tracked beyond the connection lookup. -/
def request (max_retries : Nat) (m : Registry) (connection_id method path : String)
    (transport : Nat → TransportOutcome) (parse : String → Json) (now : Int) : RequestOutput :=
  match ConnectionManager.ensure_authenticated m connection_id now with
  | ⟨m1, calls, .error e⟩ => ⟨m1, calls, 0, .error e⟩
  | ⟨m1, calls, .ok _connection⟩ =>
    match transport 0 with
    | .timeoutException msg => ⟨m1, calls, 1, .error (.fhirNetworkError ("Request timeout: " ++ msg))⟩
    | .requestError msg => ⟨m1, calls, 1, .error (.fhirNetworkError ("Network error: " ++ msg))⟩
    | .response r =>
      if isSuccessStatus r.status then
        ⟨m1, calls, 1, if r.body = "" then .ok (Json.obj []) else .ok (parse r.body)⟩
      else
        match handle_error_response r connection_id with
        | .error e => ⟨m1, calls, 1, .error e⟩
        | .ok _ => ⟨m1, calls, 1, if r.body = "" then .ok (Json.obj []) else .ok (parse r.body)⟩

end FHIRClient

/-! ### SMART Backend Services auth, from `core/auth/smart_backend.py` -/

/-- The fields `authenticate` reads from the token endpoint's 200 JSON body
(each absent when the server omitted it). -/
structure TokenResponseBody where
  access_token : Option String := none
  token_type : Option String := none
  expires_in : Option Int := none
  scope : Option String := none
  deriving DecidableEq, Repr

/-- Outcome of the POST to the token endpoint. -/
inductive TokenEndpointOutcome where
  | response (status : Nat) (text : String) (body : TokenResponseBody)
  | requestError (message : String)
  deriving DecidableEq, Repr

namespace SMARTBackendAuth

/-- `SMARTBackendAuth.authenticate`, translated from
`core/auth/smart_backend.py`: a non-200 status raises `FHIRAuthError` with the
response text in `details`; a 200 response yields an `AuthResult` with the
issued token (`KeyError` if the body lacks `access_token`), token type
defaulting to "Bearer", expiry `utcnow() + expires_in` (3600 when omitted) and
the granted scope. JWT-assertion construction has no observable effect on the
returned `AuthResult` and is not modelled. -/
def authenticate (outcome : TokenEndpointOutcome) (now : Int) : Except Err AuthResult :=
  match outcome with
  | .requestError msg => .error (.fhirAuthError ("Network error: " ++ msg) false [])
  | .response status text body =>
    if status ≠ 200 then
      .error (.fhirAuthError ("Authentication failed: " ++ toString status) false
        [("response", text)])
    else
      match body.access_token with
      | none => .error (.keyError "access_token")
      | some tok =>
        .ok { access_token := tok
              token_type := body.token_type.getD "Bearer"
              expires_at := some (now + body.expires_in.getD 3600)
              scope := body.scope
              refresh_token := none }

end SMARTBackendAuth

/-! ### Bulk export tools, from `server.py` -/

/-- What a tool passes to `response_processor.create_error_response`: a
`ValueError(...)`, a bare `Exception(...)`, or a caught `FHIRError`. -/
inductive ToolError where
  | valueError (message : String)
  | genericException (message : String)
  | fhirError (e : Err)

/-- A tool call's outcome: the `success: true` envelope with its `data`, the
`success: false` envelope, or an exception that escaped the tool (only
`FHIRError` is caught by the tools' `except` clause). -/
inductive ToolResponse (α : Type) where
  | success (data : α)
  | error (e : ToolError)
  | uncaught (e : Err)

/-- One outbound network call made during a tool invocation. -/
inductive HttpCall where
  | tokenCall (c : AuthCall)
  | kickoffCall (url : String)
  | statusCall (url : String)
  | fileFetch (url : String)
  deriving DecidableEq, Repr

/-- Token-endpoint calls made by `ensure_authenticated`, seen at tool level. -/
def authCallsToHttp (cs : List AuthCall) : List HttpCall := cs.map HttpCall.tokenCall

/-- Registry state, network-call trace and envelope produced by one tool call. -/
structure ToolOutput (α : Type) where
  registry : Registry
  calls : List HttpCall
  response : ToolResponse α

/-- Python `s.split(sep)` for a one-character separator (an empty string
splits to `[""]`, as in Python). -/
def pySplitChar (sep : Char) (s : String) : List String :=
  (s.data.splitOn sep).map (fun cs => String.mk cs)

/-- `urlencode(params, doseq=True)` over the already-stringified parameter
values (percent-escaping is claim-irrelevant and omitted): list-valued
parameters repeat the key. -/
def urlencodeDoseq (ps : List (String × List String)) : String :=
  String.intercalate "&" (ps.flatMap (fun p => p.snd.map (fun v => p.fst ++ "=" ++ v)))

/-- The `params` dict built by `fhir_bulk_export_start`: `_type` joined with
commas, `_since` verbatim, `_typeFilter` kept as a list; each key only set
when its argument is truthy (absent, empty-list and empty-string arguments are
all falsy in Python). -/
def bulkParams (_type : Option (List String)) (_since : Option String)
    (_typeFilter : Option (List String)) : List (String × List String) :=
  (match _type with
    | some ts => if ts = [] then [] else [("_type", [String.intercalate "," ts])]
    | none => []) ++
  (match _since with
    | some s => if s = "" then [] else [("_since", [s])]
    | none => []) ++
  (match _typeFilter with
    | some fs => if fs = [] then [] else [("_typeFilter", fs)]
    | none => [])

/-- `url = f"{base}/{path}"` plus `"?" + urlencode(params)` when `params` is
truthy. -/
def bulkUrl (base path : String) (params : List (String × List String)) : String :=
  base ++ "/" ++ path ++ (if params = [] then "" else "?" ++ urlencodeDoseq params)

/-- The `data` dict of a successful `fhir_bulk_export_start` envelope. -/
structure StartData where
  job_id : Option String
  status : String
  polling_url : String
  export_type : String
  group_id : Option String

/-- The kick-off GET's observed result: status code, optional
`Content-Location` header, and body text. (Transport-level exceptions are not
caught by the tool and are outside the claims about it.) -/
inductive KickoffOutcome where
  | response (status : Nat) (contentLocation : Option String) (text : String)

/-- `fhir_bulk_export_start` (`server.py`), translated step by step: path
selection from `export_type` (with `group_id` required—truthily—for group
exports) before any network call; then `ensure_authenticated`; then the single
kick-off GET; 202 yields the success envelope with the job id taken as the
last `/`-segment of a nonempty `Content-Location` (None when the header is
absent or empty); any other status yields the error envelope. -/
def fhir_bulk_export_start (m : Registry) (connection_id export_type : String)
    (group_id : Option String) (_type : Option (List String)) (_since : Option String)
    (_typeFilter : Option (List String)) (kick : KickoffOutcome) (now : Int) :
    ToolOutput StartData :=
  let pathE : Except ToolError String :=
    if export_type = "system" then .ok "$export"
    else if export_type = "patient" then .ok "Patient/$export"
    else if export_type = "group" then
      match group_id with
      | none => .error (.valueError "group_id required for group export")
      | some gid =>
        if gid = "" then .error (.valueError "group_id required for group export")
        else .ok ("Group/" ++ gid ++ "/$export")
    else .error (.valueError ("Invalid export_type: " ++ export_type))
  match pathE with
  | .error e => ⟨m, [], .error e⟩
  | .ok path =>
    let params := bulkParams _type _since _typeFilter
    match ConnectionManager.ensure_authenticated m connection_id now with
    | ⟨m1, acalls, .error e⟩ => ⟨m1, authCallsToHttp acalls, .error (.fhirError e)⟩
    | ⟨m1, acalls, .ok connection⟩ =>
      let url := bulkUrl connection.base_url path params
      match kick with
      | .response status contentLocation text =>
        let calls := authCallsToHttp acalls ++ [HttpCall.kickoffCall url]
        if status = 202 then
          let content_location := contentLocation.getD ""
          let job_id :=
            if content_location = "" then none
            else some ((pySplitChar '/' content_location).getLastD "")
          let result_data : StartData :=
            { job_id := job_id
              status := "pending"
              polling_url := content_location
              export_type := export_type
              group_id :=
                match group_id with
                | some g => if g = "" then none else some g
                | none => none }
          ⟨m1, calls, .success result_data⟩
        else
          ⟨m1, calls,
           .error (.genericException ("Bulk export failed: " ++ toString status ++ " - " ++ text))⟩

/-- One entry of the 200 status response's `output` array (each field read
with `.get`, hence optional). -/
structure OutputEntry where
  type : Option String := none
  url : Option String := none
  count : Option Int := none
  deriving DecidableEq, Repr

/-- The JSON body of a 200 status response, as read by the tool. -/
structure StatusBody where
  output : List OutputEntry := []
  transactionTime : Option String := none
  deriving DecidableEq, Repr

/-- The status GET's observed result: status code, optional `X-Progress`
header, parsed JSON body (read only on 200) and body text. -/
inductive StatusOutcome where
  | response (status : Nat) (xProgress : Option String) (body : StatusBody) (text : String)

/-- One file entry in the status tool's `data.files` list. -/
structure StatusFileEntry where
  type : Option String
  url : Option String
  count : Option Int
  deriving DecidableEq, Repr

/-- The `data` dict of a `fhir_bulk_export_status` envelope: optional keys
model keys the Python code only sometimes sets. -/
structure StatusData where
  job_id : String
  status : String
  progress : Option String := none
  files : Option (List StatusFileEntry) := none
  transaction_time : Option String := none
  error : Option String := none

/-- The `files` list extracted from a 200 status body's `output` array. -/
def statusFilesOf (body : StatusBody) : List StatusFileEntry :=
  body.output.map (fun o => ⟨o.type, o.url, o.count⟩)

/-- `fhir_bulk_export_status` (`server.py`): polls
`{base_url}/$export-status/{job_id}`; 202 → `in-progress` (with the
`X-Progress` header when truthy), 200 → `complete` with the file list and
transaction time, anything else → `error` with the raw body text. Every
branch returns a *success* envelope. -/
def fhir_bulk_export_status (m : Registry) (connection_id job_id : String)
    (poll : StatusOutcome) (now : Int) : ToolOutput StatusData :=
  match ConnectionManager.ensure_authenticated m connection_id now with
  | ⟨m1, acalls, .error e⟩ => ⟨m1, authCallsToHttp acalls, .error (.fhirError e)⟩
  | ⟨m1, acalls, .ok connection⟩ =>
    let status_url := connection.base_url ++ "/$export-status/" ++ job_id
    match poll with
    | .response status xProgress body text =>
      let calls := authCallsToHttp acalls ++ [HttpCall.statusCall status_url]
      let data : StatusData :=
        if status = 202 then
          { job_id := job_id
            status := "in-progress"
            progress :=
              match xProgress with
              | some p => if p = "" then none else some p
              | none => none }
        else if status = 200 then
          { job_id := job_id
            status := "complete"
            files := some (statusFilesOf body)
            transaction_time := body.transactionTime }
        else
          { job_id := job_id, status := "error", error := some text }
      ⟨m1, calls, .success data⟩

/-- Python list indexing `xs[i]`: negative indices count from the end;
`IndexError` when out of range on either side. -/
def pyIndex {α : Type} (xs : List α) (i : Int) : Except Err α :=
  let j : Int := if i < 0 then i + xs.length else i
  if h0 : 0 ≤ j then
    if h1 : j.toNat < xs.length then .ok (xs.get ⟨j.toNat, h1⟩)
    else .error (.indexError "list index out of range")
  else .error (.indexError "list index out of range")

/-- Python `str.strip()`: drop leading and trailing whitespace. -/
def pyStrip (s : String) : String :=
  String.mk
    (((s.data.dropWhile (fun c => c.isWhitespace)).reverse.dropWhile
      (fun c => c.isWhitespace)).reverse)

/-- NDJSON parsing as done by the download tool:
`response.text.strip().split("\n")`, keeping `json.loads(line)` for each line
whose own strip is nonempty. -/
def parseNdjson (parse : String → Json) (text : String) : List Json :=
  (pySplitChar '\n' (pyStrip text)).filterMap
    (fun line => if pyStrip line = "" then none else some (parse line))

/-- The filter `files = [f for f in files if f.get("type") == resource_type]`,
applied only when `resource_type` is truthy. -/
def filterByType (resource_type : Option String) (files : List StatusFileEntry) :
    List StatusFileEntry :=
  match resource_type with
  | some rt => if rt = "" then files else files.filter (fun f => f.type == some rt)
  | none => files

/-- One entry of the download tool's `data.files` list. -/
structure FileData where
  type : Option String
  count : Nat
  resources : List Json

/-- The `data` dict of a successful `fhir_bulk_export_download` envelope. -/
structure DownloadData where
  job_id : String
  files : List FileData

/-- Result of fetching one export file URL. -/
structure FetchOutcome where
  status : Nat
  text : String

/-- The download loop of `fhir_bulk_export_download`: re-resolves the
connection via `ensure_authenticated`, then fetches each file whose `url` is
truthy, parsing NDJSON bodies of 200 responses and silently skipping files
with any other status. -/
def downloadFiles (m1 : Registry) (calls1 : List HttpCall) (connection_id job_id : String)
    (files : List StatusFileEntry) (fetch : String → FetchOutcome) (parse : String → Json)
    (now : Int) : ToolOutput DownloadData :=
  match ConnectionManager.ensure_authenticated m1 connection_id now with
  | ⟨m2, acalls, .error e⟩ => ⟨m2, calls1 ++ authCallsToHttp acalls, .error (.fhirError e)⟩
  | ⟨m2, acalls, .ok _⟩ =>
    let step := fun (acc : List HttpCall × List FileData) (f : StatusFileEntry) =>
      match f.url with
      | none => acc
      | some u =>
        if u = "" then acc
        else
          let r := fetch u
          let calls := acc.fst ++ [HttpCall.fileFetch u]
          if r.status = 200 then
            let resources := parseNdjson parse r.text
            (calls, acc.snd ++ [⟨f.type, resources.length, resources⟩])
          else (calls, acc.snd)
    let res := files.foldl step (calls1 ++ authCallsToHttp acalls, [])
    ⟨m2, res.fst, .success ⟨job_id, res.snd⟩⟩

/-- `fhir_bulk_export_download` (`server.py`): first invokes the status tool
(this is a real HTTP poll); passes its error envelope through; rejects a job
whose reported status is not "complete"; filters by `resource_type` when
truthy; for `file_index is not None`, keeps `[files[file_index]]` when
`file_index < len(files)` (Python indexing — negative values reach the list
access, where a too-negative value raises an uncaught `IndexError`) and
returns the out-of-range error envelope otherwise; then fetches the remaining
files. -/
def fhir_bulk_export_download (m : Registry) (connection_id job_id : String)
    (resource_type : Option String) (file_index : Option Int) (poll : StatusOutcome)
    (fetch : String → FetchOutcome) (parse : String → Json) (now : Int) :
    ToolOutput DownloadData :=
  match fhir_bulk_export_status m connection_id job_id poll now with
  | ⟨m1, calls1, .error e⟩ => ⟨m1, calls1, .error e⟩
  | ⟨m1, calls1, .uncaught e⟩ => ⟨m1, calls1, .uncaught e⟩
  | ⟨m1, calls1, .success status_data⟩ =>
    if status_data.status ≠ "complete" then
      ⟨m1, calls1, .error (.genericException ("Export not complete: " ++ status_data.status))⟩
    else
      let files0 := status_data.files.getD []
      let files1 := filterByType resource_type files0
      match file_index with
      | none => downloadFiles m1 calls1 connection_id job_id files1 fetch parse now
      | some i =>
        if i < (files1.length : Int) then
          match pyIndex files1 i with
          | .ok f => downloadFiles m1 calls1 connection_id job_id [f] fetch parse now
          | .error e => ⟨m1, calls1, .uncaught e⟩
        else
          ⟨m1, calls1, .error (.valueError ("File index " ++ toString i ++ " out of range"))⟩

/-! ### Concrete fixtures used by witnesses and counterexamples -/

/-- An auth result with no expiry (never expires). -/
def arFresh : AuthResult := { access_token := "tok" }

/-- An auth result that expired at time 10. -/
def arOld : AuthResult := { access_token := "old", expires_at := some 10 }

/-- A provider whose refresh and authenticate both succeed. -/
def providerOk : AuthProvider := ⟨.ok arFresh, .ok arFresh⟩

/-- The auth error produced by a rejected token request. -/
def authErrBadKey : FHIRAuthError :=
  { message := "Authentication failed: 400", details := [("response", "invalid_client")] }

/-- A provider whose refresh fails but whose full authenticate succeeds. -/
def providerFallback : AuthProvider := ⟨.error authErrBadKey, .ok arFresh⟩

/-- A provider whose refresh and authenticate both fail. -/
def providerBad : AuthProvider := ⟨.error authErrBadKey, .error authErrBadKey⟩

/-- A registered, authenticated, non-expired connection `"c"`. -/
def conn0 : Connection :=
  { connection_id := "c"
    base_url := "https://fhir.example"
    auth_type := .smart_backend
    status := .connected
    auth_result := some arFresh
    auth_provider := some providerOk }

/-- Registry holding only `conn0`. -/
def reg0 : Registry := Registry.empty.set "c" conn0

/-- A registered connection `"e"` whose token expired and whose provider needs
the authenticate fallback. -/
def connExpired : Connection :=
  { connection_id := "e"
    base_url := "https://fhir.example"
    auth_type := .smart_backend
    status := .connected
    auth_result := some arOld
    auth_provider := some providerFallback }

/-- Registry holding only `connExpired`. -/
def regE : Registry := Registry.empty.set "e" connExpired

/-! ### Claim theorems -/

/-- Claim C3: a `connect` whose initial authentication fails propagates the
error unmodified, leaves the registry untouched, and a subsequent
`get(connection_id)` raises ConnectionNotFound when nothing was previously
registered under that id. -/
theorem connect_auth_failure_not_registered
    (m : Registry) (connection_id base_url : String) (vendor : VendorType)
    (provider : AuthProvider) (now : Int) (e : FHIRAuthError)
    (hfail : provider.authenticateOutcome = .error e)
    (habs : m connection_id = none) :
    (ConnectionManager.connect m connection_id base_url AuthType.smart_backend vendor
        provider now).result = .error e.toErr ∧
    (ConnectionManager.connect m connection_id base_url AuthType.smart_backend vendor
        provider now).registry = m ∧
    ConnectionManager.get
        (ConnectionManager.connect m connection_id base_url AuthType.smart_backend vendor
          provider now).registry connection_id =
      .error (.fhirConnectionError ("Connection not found: " ++ connection_id) connection_id) := by
  have hc : ConnectionManager.connect m connection_id base_url AuthType.smart_backend vendor
      provider now = ⟨m, Except.error e.toErr⟩ := by
    unfold ConnectionManager.connect
    simp only [hfail]
  refine ⟨by rw [hc], by rw [hc], ?_⟩
  simp only [hc, ConnectionManager.get, Registry.get?, habs]

/-- Witness for C3 at a concrete failing provider and empty registry. -/
theorem connect_auth_failure_not_registered_witness :
    (ConnectionManager.connect Registry.empty "c2" "https://x/" AuthType.smart_backend
        VendorType.generic providerBad 0).result = .error authErrBadKey.toErr ∧
    ConnectionManager.get
        (ConnectionManager.connect Registry.empty "c2" "https://x/" AuthType.smart_backend
          VendorType.generic providerBad 0).registry "c2" =
      .error (.fhirConnectionError ("Connection not found: " ++ "c2") "c2") :=
  ⟨(connect_auth_failure_not_registered Registry.empty "c2" "https://x/" VendorType.generic
      providerBad 0 authErrBadKey rfl rfl).1,
   (connect_auth_failure_not_registered Registry.empty "c2" "https://x/" VendorType.generic
      providerBad 0 authErrBadKey rfl rfl).2.2⟩

/-- Claim C4: `ensure_authenticated` on a registered connection with a present,
expired AuthResult and a provider attempts refresh exactly once; on refresh
failure a full authenticate is attempted exactly once; either success ends
CONNECTED with the new AuthResult installed; double failure leaves the stored
status TOKEN_EXPIRED and propagates the (re-authentication) error. -/
theorem ensure_authenticated_expired_refresh_fallback
    (m : Registry) (connection_id : String) (conn : Connection) (ar : AuthResult)
    (p : AuthProvider) (now : Int)
    (hm : m connection_id = some conn)
    (har : conn.auth_result = some ar)
    (hexp : ar.is_expired now = true)
    (hp : conn.auth_provider = some p) :
    ((ConnectionManager.ensure_authenticated m connection_id now).calls.count
        AuthCall.refreshCall = 1) ∧
    (∀ a, p.refreshOutcome = .ok a →
      (ConnectionManager.ensure_authenticated m connection_id now).calls =
        [AuthCall.refreshCall] ∧
      ∃ c, (ConnectionManager.ensure_authenticated m connection_id now).result = .ok c ∧
        c.status = ConnectionStatus.connected ∧ c.auth_result = some a) ∧
    (∀ e1 a, p.refreshOutcome = .error e1 → p.authenticateOutcome = .ok a →
      (ConnectionManager.ensure_authenticated m connection_id now).calls =
        [AuthCall.refreshCall, AuthCall.authenticateCall] ∧
      ∃ c, (ConnectionManager.ensure_authenticated m connection_id now).result = .ok c ∧
        c.status = ConnectionStatus.connected ∧ c.auth_result = some a) ∧
    (∀ e1 e2, p.refreshOutcome = .error e1 → p.authenticateOutcome = .error e2 →
      (ConnectionManager.ensure_authenticated m connection_id now).calls =
        [AuthCall.refreshCall, AuthCall.authenticateCall] ∧
      (ConnectionManager.ensure_authenticated m connection_id now).result = .error e2.toErr ∧
      ∃ c, (ConnectionManager.ensure_authenticated m connection_id now).registry connection_id
          = some c ∧ c.status = ConnectionStatus.token_expired) := by
  have hget : ConnectionManager.get m connection_id = .ok conn := by
    unfold ConnectionManager.get Registry.get?
    rw [hm]
  unfold ConnectionManager.ensure_authenticated
  simp only [hget, har, hexp, hp, if_true]
  cases hro : p.refreshOutcome with
  | ok a0 =>
    refine ⟨rfl, ?_, ?_, ?_⟩
    · intro a ha
      cases ha
      exact ⟨rfl, _, rfl, rfl, rfl⟩
    · intro e1 a h1 _
      cases h1
    · intro e1 e2 h1 _
      cases h1
  | error e0 =>
    cases hao : p.authenticateOutcome with
    | ok b0 =>
      refine ⟨rfl, ?_, ?_, ?_⟩
      · intro a ha
        cases ha
      · intro e1 a h1 h2
        cases h2
        exact ⟨rfl, _, rfl, rfl, rfl⟩
      · intro e1 e2 h1 h2
        cases h2
    | error b0 =>
      refine ⟨rfl, ?_, ?_, ?_⟩
      · intro a ha
        cases ha
      · intro e1 a h1 h2
        cases h2
      · intro e1 e2 h1 h2
        cases h2
        refine ⟨rfl, rfl, { conn with status := ConnectionStatus.token_expired, auth_result := some ar, auth_provider := some p }, ?_, rfl⟩
        simp [Registry.set]

/-- Witness for C4: the refresh-fails-then-authenticate-succeeds path on a
concrete expired connection ends CONNECTED with the fresh AuthResult. -/
theorem ensure_authenticated_expired_refresh_fallback_witness :
    (ConnectionManager.ensure_authenticated regE "e" 100).calls =
      [AuthCall.refreshCall, AuthCall.authenticateCall] ∧
    ∃ c, (ConnectionManager.ensure_authenticated regE "e" 100).result = .ok c ∧
      c.status = ConnectionStatus.connected ∧ c.auth_result = some arFresh :=
  (ensure_authenticated_expired_refresh_fallback regE "e" connExpired arOld
    providerFallback 100 rfl rfl rfl rfl).2.2.1 authErrBadKey arFresh rfl rfl

/-- Claim C6: `ensure_authenticated` on a registered connection with a present,
unexpired AuthResult makes no provider network call and returns the connection
changed only in `last_used_at`; and every successful `ensure_authenticated`
return has `last_used_at` stamped with the current time. -/
theorem ensure_authenticated_not_expired_frame
    (m : Registry) (connection_id : String) (conn : Connection) (ar : AuthResult) (now : Int)
    (hm : m connection_id = some conn)
    (har : conn.auth_result = some ar)
    (hexp : ar.is_expired now = false) :
    (ConnectionManager.ensure_authenticated m connection_id now).calls = [] ∧
    (ConnectionManager.ensure_authenticated m connection_id now).result =
      .ok { conn with last_used_at := some now } ∧
    ({ conn with last_used_at := some now } : Connection).auth_result = some ar ∧
    (∀ m' cid' now' c',
      (ConnectionManager.ensure_authenticated m' cid' now').result = Except.ok c' →
      c'.last_used_at = some now') := by
  have hget : ConnectionManager.get m connection_id = .ok conn := by
    unfold ConnectionManager.get Registry.get?
    rw [hm]
  have hrun : ConnectionManager.ensure_authenticated m connection_id now =
      ⟨m.set connection_id { conn with last_used_at := some now }, [],
        .ok { conn with last_used_at := some now }⟩ := by
    unfold ConnectionManager.ensure_authenticated
    simp only [hget, har, hexp]
    rfl
  refine ⟨by rw [hrun], by rw [hrun], har, ?_⟩
  intro m' cid' now' c' h
  unfold ConnectionManager.ensure_authenticated at h
  cases hg : ConnectionManager.get m' cid' with
  | error e =>
    simp only [hg] at h
    exact Except.noConfusion h
  | ok c =>
    simp only [hg] at h
    cases hca : c.auth_result with
    | none =>
      simp only [hca] at h
      cases h
      rfl
    | some ar' =>
      simp only [hca] at h
      by_cases hex : ar'.is_expired now' = true
      · rw [if_pos hex] at h
        cases hpv : c.auth_provider with
        | none =>
          simp only [hpv] at h
          cases h
          rfl
        | some p' =>
          simp only [hpv] at h
          cases hro : p'.refreshOutcome with
          | ok a0 =>
            simp only [hro] at h
            cases h
            rfl
          | error e0 =>
            simp only [hro] at h
            cases hao : p'.authenticateOutcome with
            | ok b0 =>
              simp only [hao] at h
              cases h
              rfl
            | error b0 =>
              simp only [hao] at h
              exact Except.noConfusion h
      · rw [if_neg hex] at h
        cases h
        rfl

/-- Witness for C6 on the concrete non-expired connection `conn0`. -/
theorem ensure_authenticated_not_expired_frame_witness :
    (ConnectionManager.ensure_authenticated reg0 "c" 0).calls = [] ∧
    (ConnectionManager.ensure_authenticated reg0 "c" 0).result =
      .ok { conn0 with last_used_at := some 0 } :=
  ⟨(ensure_authenticated_not_expired_frame reg0 "c" conn0 arFresh 0 rfl rfl rfl).1,
   (ensure_authenticated_not_expired_frame reg0 "c" conn0 arFresh 0 rfl rfl rfl).2.1⟩

/-- Claim C7: `FHIRClient.request` issues at most one HTTP attempt, whatever
the transport produces (response of any status, timeout, or transport error)
and whatever `max_retries` is configured. -/
theorem request_at_most_one_http_attempt
    (max_retries : Nat) (m : Registry) (connection_id method path : String)
    (transport : Nat → TransportOutcome) (parse : String → Json) (now : Int) :
    (FHIRClient.request max_retries m connection_id method path transport
      parse now).httpAttempts ≤ 1 := by
  unfold FHIRClient.request
  split
  · exact Nat.zero_le 1
  · split
    · exact Nat.le_refl 1
    · exact Nat.le_refl 1
    · split
      · exact Nat.le_refl 1
      · split
        · exact Nat.le_refl 1
        · exact Nat.le_refl 1

/-- Claim C8: `SMARTBackendAuth.authenticate` maps a non-200 token response to
`FHIRAuthError` carrying the response body, and a 200 response carrying an
access token to an `AuthResult` with that token, token type defaulting to
"Bearer", expiry `now + expires_in` (3600 when omitted) and the granted
scope. -/
theorem smart_authenticate_token_mapping
    (status : Nat) (text : String) (body : TokenResponseBody) (now : Int) :
    (status ≠ 200 →
      SMARTBackendAuth.authenticate (.response status text body) now =
        .error (.fhirAuthError ("Authentication failed: " ++ toString status) false
          [("response", text)])) ∧
    (∀ tok, status = 200 → body.access_token = some tok →
      SMARTBackendAuth.authenticate (.response status text body) now =
        .ok { access_token := tok
              token_type := body.token_type.getD "Bearer"
              expires_at := some (now + body.expires_in.getD 3600)
              scope := body.scope
              refresh_token := none }) := by
  constructor
  · intro hne
    simp only [SMARTBackendAuth.authenticate]
    rw [if_pos hne]
  · intro tok h200 htok
    subst h200
    simp only [SMARTBackendAuth.authenticate]
    rw [if_neg (fun hh => hh rfl), htok]

/-- Witness for C8: concrete 200 response with `expires_in` 60 and no
`token_type`. -/
theorem smart_authenticate_token_mapping_witness :
    SMARTBackendAuth.authenticate
        (.response 200 ""
          { access_token := some "abc", token_type := none, expires_in := some 60,
            scope := some "system/*.read" }) 1000 =
      .ok { access_token := "abc", token_type := "Bearer", expires_at := some (1000 + 60),
            scope := some "system/*.read", refresh_token := none } :=
  (smart_authenticate_token_mapping 200 ""
    { access_token := some "abc", token_type := none, expires_in := some 60,
      scope := some "system/*.read" } 1000).2 "abc" rfl rfl

/-- Claim C1, counterexample: an HTTP 400 response — a non-2xx status — does
not raise any typed error: `request` returns the parsed body exactly as for a
success, because `_handle_error_response` has no branch for it. -/
theorem request_non2xx_no_error_counterexample :
    (FHIRClient.request MAX_RETRIES reg0 "c" "GET" "Patient"
        (fun _ => TransportOutcome.response { status := 400, headers := [], body := "x" })
        (fun _ => Json.null) 0).result = Except.ok Json.null := rfl

/-- Claim C1 as amended: for a request reaching the transport on an
authenticated connection, 401/403/404/429/5xx map to the typed errors the
claim states (429 carrying the integer `Retry-After` when the header is a
nonempty integer string, `None` when absent or empty, and raising an uncaught
`ValueError` on a non-integer header), 2xx returns the parsed body (empty
object for an empty body), and every remaining status — 1xx, 3xx, and 4xx
other than 401/403/404/429 — falls through the error handler and returns the
parsed body as if successful. -/
theorem request_status_mapping_amended
    (max_retries : Nat) (m : Registry) (connection_id method path : String)
    (conn : Connection) (ar : AuthResult) (transport : Nat → TransportOutcome)
    (parse : String → Json) (now : Int) (r : HttpResponse)
    (hm : m connection_id = some conn)
    (har : conn.auth_result = some ar)
    (hexp : ar.is_expired now = false)
    (htr : transport 0 = TransportOutcome.response r) :
    (r.status = 401 →
      (FHIRClient.request max_retries m connection_id method path transport parse now).result =
        .error (.fhirAuthError "Authentication failed - token may be invalid" true
          [("connection_id", connection_id)])) ∧
    (r.status = 403 →
      (FHIRClient.request max_retries m connection_id method path transport parse now).result =
        .error (.fhirAuthError "Access forbidden - insufficient permissions" false
          [("connection_id", connection_id)])) ∧
    (r.status = 404 →
      (FHIRClient.request max_retries m connection_id method path transport parse now).result =
        .error (.fhirResourceNotFound "Resource not found" [("connection_id", connection_id)])) ∧
    (r.status = 429 → headerGet r.headers "Retry-After" = none →
      (FHIRClient.request max_retries m connection_id method path transport parse now).result =
        .error (.fhirRateLimit "Rate limit exceeded" none [("connection_id", connection_id)])) ∧
    (r.status = 429 → headerGet r.headers "Retry-After" = some "" →
      (FHIRClient.request max_retries m connection_id method path transport parse now).result =
        .error (.fhirRateLimit "Rate limit exceeded" none [("connection_id", connection_id)])) ∧
    (∀ s n, r.status = 429 → headerGet r.headers "Retry-After" = some s → s ≠ "" →
      pyInt s = some n →
      (FHIRClient.request max_retries m connection_id method path transport parse now).result =
        .error (.fhirRateLimit "Rate limit exceeded" (some n)
          [("connection_id", connection_id)])) ∧
    (∀ s, r.status = 429 → headerGet r.headers "Retry-After" = some s → s ≠ "" →
      pyInt s = none →
      (FHIRClient.request max_retries m connection_id method path transport parse now).result =
        .error (.valueError ("invalid literal for int with base 10: " ++ s))) ∧
    (500 ≤ r.status →
      (FHIRClient.request max_retries m connection_id method path transport parse now).result =
        .error (.fhirServerError ("FHIR server error: " ++ toString r.status) r.status
          [("connection_id", connection_id), ("response", r.body.take 500)])) ∧
    (isSuccessStatus r.status = true →
      (FHIRClient.request max_retries m connection_id method path transport parse now).result =
        (if r.body = "" then .ok (Json.obj []) else .ok (parse r.body))) ∧
    (isSuccessStatus r.status = false → r.status ≠ 401 → r.status ≠ 403 → r.status ≠ 404 →
      r.status ≠ 429 → r.status < 500 →
      (FHIRClient.request max_retries m connection_id method path transport parse now).result =
        (if r.body = "" then .ok (Json.obj []) else .ok (parse r.body))) := by
  have hget : ConnectionManager.get m connection_id = .ok conn := by
    unfold ConnectionManager.get Registry.get?
    rw [hm]
  have hrun : (FHIRClient.request max_retries m connection_id method path transport
      parse now).result =
      (if isSuccessStatus r.status then
        (if r.body = "" then .ok (Json.obj []) else .ok (parse r.body))
      else
        match FHIRClient.handle_error_response r connection_id with
        | .error e => .error e
        | .ok _ => (if r.body = "" then .ok (Json.obj []) else .ok (parse r.body))) := by
    unfold FHIRClient.request
    unfold ConnectionManager.ensure_authenticated
    simp only [hget, har, hexp, Bool.false_eq_true, if_false, htr]
    split
    · rfl
    · split <;> rfl
  refine ⟨?_, ?_, ?_, ?_, ?_, ?_, ?_, ?_, ?_, ?_⟩
  · intro h
    rw [hrun]
    simp [isSuccessStatus, FHIRClient.handle_error_response, h]
  · intro h
    rw [hrun]
    simp [isSuccessStatus, FHIRClient.handle_error_response, h]
  · intro h
    rw [hrun]
    simp [isSuccessStatus, FHIRClient.handle_error_response, h]
  · intro h hra
    rw [hrun]
    simp [isSuccessStatus, FHIRClient.handle_error_response, h, hra]
  · intro h hra
    rw [hrun]
    simp [isSuccessStatus, FHIRClient.handle_error_response, h, hra]
  · intro s n h hra hs hn
    rw [hrun]
    simp [isSuccessStatus, FHIRClient.handle_error_response, h, hra, hs, hn]
  · intro s h hra hs hn
    rw [hrun]
    simp [isSuccessStatus, FHIRClient.handle_error_response, h, hra, hs, hn]
  · intro h
    have hns : isSuccessStatus r.status = false := by
      unfold isSuccessStatus
      have : ¬ (r.status ≤ 299) := by omega
      simp [this]
    have h401 : r.status ≠ 401 := by omega
    have h403 : r.status ≠ 403 := by omega
    have h404 : r.status ≠ 404 := by omega
    have h429 : r.status ≠ 429 := by omega
    rw [hrun, hns]
    simp only [Bool.false_eq_true, if_false]
    unfold FHIRClient.handle_error_response
    simp [h401, h403, h404, h429, h]
  · intro h
    rw [hrun, h]
    simp
  · intro hns h401 h403 h404 h429 h500
    have hlt : ¬ (500 ≤ r.status) := by omega
    rw [hrun, hns]
    simp only [Bool.false_eq_true, if_false]
    unfold FHIRClient.handle_error_response
    simp [h401, h403, h404, h429, hlt]

/-- Witness for the amended C1 at a concrete 503 response carried through the
full request path. -/
theorem request_status_mapping_amended_witness :
    (FHIRClient.request 3 reg0 "c" "GET" "Patient"
        (fun _ => TransportOutcome.response { status := 503, headers := [], body := "oops" })
        (fun _ => Json.null) 0).result =
      .error (.fhirServerError ("FHIR server error: " ++ toString (503 : Nat)) 503
        [("connection_id", "c"), ("response", String.take "oops" 500)]) :=
  (request_status_mapping_amended 3 reg0 "c" "GET" "Patient" conn0 arFresh
    (fun _ => TransportOutcome.response { status := 503, headers := [], body := "oops" })
    (fun _ => Json.null) 0 { status := 503, headers := [], body := "oops" }
    rfl rfl rfl rfl).2.2.2.2.2.2.2.1 (by decide)

/-- Claim C5: bulk-export `start` builds the export path from `export_type`
(system → `$export`, patient → `Patient/$export`, group →
`Group/-group_id-/$export`); a group export without a (truthy) `group_id`
fails before any HTTP call; success is strictly HTTP 202, with the job id the
last `/`-segment of `Content-Location`; any other status is an error envelope
after exactly the one kick-off call. -/
theorem bulk_export_start_kickoff
    (m : Registry) (connection_id export_type : String) (group_id : Option String)
    (_type : Option (List String)) (_since : Option String) (_typeFilter : Option (List String))
    (kick : KickoffOutcome) (now : Int) (conn : Connection) (ar : AuthResult)
    (hm : m connection_id = some conn)
    (har : conn.auth_result = some ar)
    (hexp : ar.is_expired now = false) :
    (export_type = "system" →
      (fhir_bulk_export_start m connection_id export_type group_id _type _since _typeFilter
          kick now).calls =
        [HttpCall.kickoffCall
          (bulkUrl conn.base_url "$export" (bulkParams _type _since _typeFilter))]) ∧
    (export_type = "patient" →
      (fhir_bulk_export_start m connection_id export_type group_id _type _since _typeFilter
          kick now).calls =
        [HttpCall.kickoffCall
          (bulkUrl conn.base_url "Patient/$export" (bulkParams _type _since _typeFilter))]) ∧
    (∀ g, export_type = "group" → group_id = some g → g ≠ "" →
      (fhir_bulk_export_start m connection_id export_type group_id _type _since _typeFilter
          kick now).calls =
        [HttpCall.kickoffCall
          (bulkUrl conn.base_url ("Group/" ++ g ++ "/$export")
            (bulkParams _type _since _typeFilter))]) ∧
    (export_type = "group" → (group_id = none ∨ group_id = some "") →
      (fhir_bulk_export_start m connection_id export_type group_id _type _since _typeFilter
          kick now).response =
        ToolResponse.error (.valueError "group_id required for group export") ∧
      (fhir_bulk_export_start m connection_id export_type group_id _type _since _typeFilter
          kick now).calls = []) ∧
    (∀ s cl text, kick = KickoffOutcome.response s cl text → s ≠ 202 →
      (export_type = "system" ∨ export_type = "patient") →
      (fhir_bulk_export_start m connection_id export_type group_id _type _since _typeFilter
          kick now).response =
        ToolResponse.error
          (.genericException ("Bulk export failed: " ++ toString s ++ " - " ++ text))) ∧
    (∀ cl text, kick = KickoffOutcome.response 202 (some cl) text → cl ≠ "" →
      (export_type = "system" ∨ export_type = "patient") →
      ∃ d, (fhir_bulk_export_start m connection_id export_type group_id _type _since
          _typeFilter kick now).response = ToolResponse.success d ∧
        d.job_id = some ((pySplitChar '/' cl).getLastD "") ∧
        d.status = "pending" ∧ d.polling_url = cl ∧ d.export_type = export_type) := by
  have hget : ConnectionManager.get m connection_id = .ok conn := by
    unfold ConnectionManager.get Registry.get?
    rw [hm]
  have hrun : ConnectionManager.ensure_authenticated m connection_id now =
      ⟨m.set connection_id { conn with last_used_at := some now }, [],
        .ok { conn with last_used_at := some now }⟩ := by
    unfold ConnectionManager.ensure_authenticated
    simp only [hget, har, hexp]
    rfl
  refine ⟨?_, ?_, ?_, ?_, ?_, ?_⟩
  · intro h
    subst h
    rcases kick with ⟨s, cl, text⟩
    unfold fhir_bulk_export_start
    simp only [hrun]
    simp [authCallsToHttp]
    split <;> rfl
  · intro h
    subst h
    rcases kick with ⟨s, cl, text⟩
    unfold fhir_bulk_export_start
    simp only [hrun]
    simp [authCallsToHttp]
    split <;> rfl
  · intro g h hg hne
    subst h
    subst hg
    rcases kick with ⟨s, cl, text⟩
    unfold fhir_bulk_export_start
    simp only [hrun, hne]
    simp [authCallsToHttp]
    split <;> rfl
  · intro h hg
    subst h
    rcases hg with hg | hg <;> subst hg <;>
      exact ⟨rfl, rfl⟩
  · intro s cl text hk hne hpath
    subst hk
    rcases hpath with h | h <;> subst h <;>
    · unfold fhir_bulk_export_start
      simp only [hrun]
      simp [authCallsToHttp]
      rw [if_neg hne]
  · intro cl text hk hcl hpath
    subst hk
    rcases hpath with h | h <;> subst h <;>
    · unfold fhir_bulk_export_start
      simp only [hrun]
      simp [authCallsToHttp, hcl]

/-- Witness for C5: a concrete system export kicked off with a 202 and
`Content-Location` ending in `job-42` yields a pending envelope with that job
id. -/
theorem bulk_export_start_kickoff_witness :
    ∃ d, (fhir_bulk_export_start reg0 "c" "system" none none none none
        (KickoffOutcome.response 202 (some "https://x/export-status/job-42") "") 0).response =
      ToolResponse.success d ∧
      d.job_id = some ((pySplitChar '/' "https://x/export-status/job-42").getLastD "") ∧
      d.status = "pending" ∧ d.polling_url = "https://x/export-status/job-42" ∧
      d.export_type = "system" :=
  (bulk_export_start_kickoff reg0 "c" "system" none none none none
    (KickoffOutcome.response 202 (some "https://x/export-status/job-42") "") 0 conn0 arFresh
    rfl rfl rfl).2.2.2.2.2 "https://x/export-status/job-42" "" rfl
    (by decide) (Or.inl rfl)

/-- Claim C10: a 202 kick-off response with no `Content-Location` header still
returns a success envelope, with `job_id = None` and an empty `polling_url`. -/
theorem bulk_export_start_missing_content_location
    (m : Registry) (connection_id export_type : String) (group_id : Option String)
    (_type : Option (List String)) (_since : Option String) (_typeFilter : Option (List String))
    (text : String) (now : Int) (conn : Connection) (ar : AuthResult)
    (hm : m connection_id = some conn)
    (har : conn.auth_result = some ar)
    (hexp : ar.is_expired now = false)
    (hpath : export_type = "system" ∨ export_type = "patient") :
    ∃ d, (fhir_bulk_export_start m connection_id export_type group_id _type _since _typeFilter
        (KickoffOutcome.response 202 none text) now).response = ToolResponse.success d ∧
      d.job_id = none ∧ d.polling_url = "" ∧ d.status = "pending" := by
  have hget : ConnectionManager.get m connection_id = .ok conn := by
    unfold ConnectionManager.get Registry.get?
    rw [hm]
  have hrun : ConnectionManager.ensure_authenticated m connection_id now =
      ⟨m.set connection_id { conn with last_used_at := some now }, [],
        .ok { conn with last_used_at := some now }⟩ := by
    unfold ConnectionManager.ensure_authenticated
    simp only [hget, har, hexp]
    rfl
  rcases hpath with h | h <;> subst h <;>
  · unfold fhir_bulk_export_start
    simp only [hrun]
    simp

/-- Witness for C10 at a concrete 202 kick-off without the header. -/
theorem bulk_export_start_missing_content_location_witness :
    ∃ d, (fhir_bulk_export_start reg0 "c" "system" none none none none
        (KickoffOutcome.response 202 none "ok") 0).response = ToolResponse.success d ∧
      d.job_id = none ∧ d.polling_url = "" ∧ d.status = "pending" :=
  bulk_export_start_missing_content_location reg0 "c" "system" none none none none "ok" 0
    conn0 arFresh rfl rfl rfl (Or.inl rfl)

/-- Claim C2, counterexample: a download on a job still in progress *does*
issue an HTTP call — the status poll — before rejecting, so "no HTTP call is
issued at all" is false (the rejection itself is as claimed). -/
theorem bulk_export_download_incomplete_counterexample :
    (fhir_bulk_export_download reg0 "c" "job-1" none none
        (StatusOutcome.response 202 none ⟨[], none⟩ "") (fun _ => ⟨200, ""⟩)
        (fun _ => Json.null) 0).calls =
      [HttpCall.statusCall "https://fhir.example/$export-status/job-1"] ∧
    (fhir_bulk_export_download reg0 "c" "job-1" none none
        (StatusOutcome.response 202 none ⟨[], none⟩ "") (fun _ => ⟨200, ""⟩)
        (fun _ => Json.null) 0).response =
      ToolResponse.error (.genericException "Export not complete: in-progress") :=
  ⟨rfl, rfl⟩

/-- Claim C2 as amended: a download on a job whose poll does not report 200
(hence whose derived status is not "complete") is rejected with an error after
exactly one HTTP call — the status poll — and no file is fetched; and a
`file_index` at least the length of the type-filtered file list of a complete
job is rejected with the out-of-range error, likewise with only the status
poll issued and no file fetched. -/
theorem bulk_export_download_gating_amended
    (m : Registry) (connection_id job_id : String) (resource_type : Option String)
    (file_index : Option Int) (fetch : String → FetchOutcome) (parse : String → Json)
    (now : Int) (conn : Connection) (ar : AuthResult)
    (s : Nat) (xp : Option String) (body : StatusBody) (text : String)
    (hm : m connection_id = some conn)
    (har : conn.auth_result = some ar)
    (hexp : ar.is_expired now = false) :
    (s ≠ 200 →
      (fhir_bulk_export_download m connection_id job_id resource_type file_index
          (StatusOutcome.response s xp body text) fetch parse now).response =
        ToolResponse.error (.genericException
          ("Export not complete: " ++ (if s = 202 then "in-progress" else "error"))) ∧
      (fhir_bulk_export_download m connection_id job_id resource_type file_index
          (StatusOutcome.response s xp body text) fetch parse now).calls =
        [HttpCall.statusCall (conn.base_url ++ "/$export-status/" ++ job_id)]) ∧
    (∀ i, s = 200 → file_index = some i →
      ((filterByType resource_type (statusFilesOf body)).length : Int) ≤ i →
      (fhir_bulk_export_download m connection_id job_id resource_type file_index
          (StatusOutcome.response s xp body text) fetch parse now).response =
        ToolResponse.error (.valueError ("File index " ++ toString i ++ " out of range")) ∧
      (fhir_bulk_export_download m connection_id job_id resource_type file_index
          (StatusOutcome.response s xp body text) fetch parse now).calls =
        [HttpCall.statusCall (conn.base_url ++ "/$export-status/" ++ job_id)]) := by
  have hget : ConnectionManager.get m connection_id = .ok conn := by
    unfold ConnectionManager.get Registry.get?
    rw [hm]
  have hrun : ConnectionManager.ensure_authenticated m connection_id now =
      ⟨m.set connection_id { conn with last_used_at := some now }, [],
        .ok { conn with last_used_at := some now }⟩ := by
    unfold ConnectionManager.ensure_authenticated
    simp only [hget, har, hexp]
    rfl
  constructor
  · intro hne
    by_cases h202 : s = 202
    · subst h202
      unfold fhir_bulk_export_download fhir_bulk_export_status
      simp only [hrun]
      simp [authCallsToHttp]
    · unfold fhir_bulk_export_download fhir_bulk_export_status
      simp only [hrun]
      simp [authCallsToHttp, h202, hne]
  · intro i h200 hfi hlen
    subst h200
    subst hfi
    have hnotlt : ¬ (i < ((filterByType resource_type (statusFilesOf body)).length : Int)) := by
      omega
    unfold fhir_bulk_export_download fhir_bulk_export_status
    simp only [hrun]
    simp [authCallsToHttp, hnotlt]

/-- Witness for the amended C2: the out-of-range branch at `file_index = 3`
with only 2 files, rejected with only the status poll issued. -/
theorem bulk_export_download_gating_amended_witness :
    (fhir_bulk_export_download reg0 "c" "j2" none (some 3)
        (StatusOutcome.response 200 none
          ⟨[{ url := some "https://files/a" }, { url := some "https://files/b" }], none⟩ "")
        (fun _ => ⟨200, ""⟩) (fun _ => Json.null) 0).response =
      ToolResponse.error (.valueError ("File index " ++ toString (3 : Int) ++ " out of range")) ∧
    (fhir_bulk_export_download reg0 "c" "j2" none (some 3)
        (StatusOutcome.response 200 none
          ⟨[{ url := some "https://files/a" }, { url := some "https://files/b" }], none⟩ "")
        (fun _ => ⟨200, ""⟩) (fun _ => Json.null) 0).calls =
      [HttpCall.statusCall ("https://fhir.example" ++ "/$export-status/" ++ "j2")] :=
  (bulk_export_download_gating_amended reg0 "c" "j2" none (some 3) (fun _ => ⟨200, ""⟩)
    (fun _ => Json.null) 0 conn0 arFresh 200 none
    ⟨[{ url := some "https://files/a" }, { url := some "https://files/b" }], none⟩ ""
    rfl rfl rfl).2 3 rfl rfl (by decide)

/-- A one-file complete export body used by the C9 counterexample. -/
def body1 : StatusBody :=
  { output := [{ type := some "Patient", url := some "https://files/f0", count := some 5 }] }

/-- Claim C9, counterexample: `file_index = -2` with a single file passes the
`file_index < len(files)` guard but the list access `files[-2]` raises an
uncaught `IndexError` — no file is selected or fetched, refuting "the negative
index selects a file ... which is then fetched" for every negative index. -/
theorem bulk_export_download_negative_index_counterexample :
    (fhir_bulk_export_download reg0 "c" "j" none (some (-2))
        (StatusOutcome.response 200 none body1 "") (fun _ => ⟨200, ""⟩)
        (fun _ => Json.null) 0).response =
      ToolResponse.uncaught (.indexError "list index out of range") ∧
    (fhir_bulk_export_download reg0 "c" "j" none (some (-2))
        (StatusOutcome.response 200 none body1 "") (fun _ => ⟨200, ""⟩)
        (fun _ => Json.null) 0).calls =
      [HttpCall.statusCall "https://fhir.example/$export-status/j"] :=
  ⟨rfl, rfl⟩

/-- Claim C9 as amended: a negative `file_index` always escapes the
out-of-range guard; when it is within Python range (`-len ≤ file_index`), it
selects the element at position `len + file_index` — counted from the end —
and that file is fetched (producing its parsed NDJSON when the fetch returns
200); a more negative index instead raises an uncaught `IndexError`. -/
theorem bulk_export_download_negative_index_amended
    (m : Registry) (connection_id job_id : String) (resource_type : Option String)
    (fetch : String → FetchOutcome) (parse : String → Json) (now : Int)
    (conn : Connection) (ar : AuthResult)
    (xp : Option String) (body : StatusBody) (text : String)
    (i : Int) (f : StatusFileEntry) (u : String)
    (hm : m connection_id = some conn)
    (har : conn.auth_result = some ar)
    (hexp : ar.is_expired now = false)
    (hneg : i < 0)
    (hsel : pyIndex (filterByType resource_type (statusFilesOf body)) i = .ok f)
    (hurl : f.url = some u)
    (hu : u ≠ "") :
    (filterByType resource_type (statusFilesOf body)).get?
        (i + ((filterByType resource_type (statusFilesOf body)).length : Int)).toNat = some f ∧
    (fhir_bulk_export_download m connection_id job_id resource_type (some i)
        (StatusOutcome.response 200 xp body text) fetch parse now).calls =
      [HttpCall.statusCall (conn.base_url ++ "/$export-status/" ++ job_id),
       HttpCall.fileFetch u] ∧
    (fhir_bulk_export_download m connection_id job_id resource_type (some i)
        (StatusOutcome.response 200 xp body text) fetch parse now).response =
      ToolResponse.success
        ⟨job_id,
          if (fetch u).status = 200 then
            [⟨f.type, (parseNdjson parse (fetch u).text).length,
              parseNdjson parse (fetch u).text⟩]
          else []⟩ := by
  have hget : ConnectionManager.get m connection_id = .ok conn := by
    unfold ConnectionManager.get Registry.get?
    rw [hm]
  have hrun : ConnectionManager.ensure_authenticated m connection_id now =
      ⟨m.set connection_id { conn with last_used_at := some now }, [],
        .ok { conn with last_used_at := some now }⟩ := by
    unfold ConnectionManager.ensure_authenticated
    simp only [hget, har, hexp]
    rfl
  have hrun2 : ConnectionManager.ensure_authenticated
      (m.set connection_id { conn with last_used_at := some now }) connection_id now =
      ⟨(m.set connection_id { conn with last_used_at := some now }).set connection_id
          { conn with last_used_at := some now }, [],
        .ok { conn with last_used_at := some now }⟩ := by
    have hget2 : ConnectionManager.get
        (m.set connection_id { conn with last_used_at := some now }) connection_id =
        .ok { conn with last_used_at := some now } := by
      unfold ConnectionManager.get Registry.get? Registry.set
      rw [if_pos rfl]
    unfold ConnectionManager.ensure_authenticated
    simp only [hget2]
    simp only [har, hexp]
    rfl
  have hlt : i < ((filterByType resource_type (statusFilesOf body)).length : Int) := by
    have := (filterByType resource_type (statusFilesOf body)).length
    omega
  refine ⟨?_, ?_, ?_⟩
  · unfold pyIndex at hsel
    rw [if_pos hneg] at hsel
    by_cases h0 : 0 ≤ i + ((filterByType resource_type (statusFilesOf body)).length : Int)
    · rw [dif_pos h0] at hsel
      by_cases h1 : (i + ((filterByType resource_type (statusFilesOf body)).length : Int)).toNat
          < (filterByType resource_type (statusFilesOf body)).length
      · rw [dif_pos h1] at hsel
        cases hsel
        exact List.get?_eq_get h1
      · rw [dif_neg h1] at hsel
        exact absurd hsel (by simp)
    · rw [dif_neg h0] at hsel
      exact absurd hsel (by simp)
  · unfold fhir_bulk_export_download fhir_bulk_export_status
    simp only [hrun]
    simp [authCallsToHttp]
    rw [if_pos hlt, hsel]
    unfold downloadFiles
    simp only [hrun2]
    simp [hurl, hu]
    split <;> rfl
  · unfold fhir_bulk_export_download fhir_bulk_export_status
    simp only [hrun]
    simp [authCallsToHttp]
    rw [if_pos hlt, hsel]
    unfold downloadFiles
    simp only [hrun2]
    simp [hurl, hu]
    split <;> rfl

/-- Witness for the amended C9: `file_index = -1` on a single-file complete
export selects that file and fetches it. -/
theorem bulk_export_download_negative_index_amended_witness :
    (filterByType none (statusFilesOf body1)).get?
        ((-1) + ((filterByType none (statusFilesOf body1)).length : Int)).toNat =
      some { type := some "Patient", url := some "https://files/f0", count := some 5 } ∧
    (fhir_bulk_export_download reg0 "c" "j" none (some (-1))
        (StatusOutcome.response 200 none body1 "")
        (fun _ => ⟨200, "r1"⟩) (fun _ => Json.null) 0).calls =
      [HttpCall.statusCall ("https://fhir.example" ++ "/$export-status/" ++ "j"),
       HttpCall.fileFetch "https://files/f0"] :=
  ⟨(bulk_export_download_negative_index_amended reg0 "c" "j" none (fun _ => ⟨200, "r1"⟩)
      (fun _ => Json.null) 0 conn0 arFresh none body1 "" (-1)
      { type := some "Patient", url := some "https://files/f0", count := some 5 }
      "https://files/f0" rfl rfl rfl (by decide) (by rfl) rfl (by decide)).1,
   (bulk_export_download_negative_index_amended reg0 "c" "j" none (fun _ => ⟨200, "r1"⟩)
      (fun _ => Json.null) 0 conn0 arFresh none body1 "" (-1)
      { type := some "Patient", url := some "https://files/f0", count := some 5 }
      "https://files/f0" rfl rfl rfl (by decide) (by rfl) rfl (by decide)).2.1⟩

end FHIR
